import Mathlib

/-!
Verification of the build description in `setup.py` of the CLASS++ repository,
together with spec-level models of the pipeline behaviour that the build wires up.

The Python build script is embedded shallowly: the list expressions become Lean
list definitions, `os.path.join` is modelled with the POSIX separator, values
that depend on the environment (`os.name`, `numpy.get_include()`) become
explicit parameters, and the fallible file access in `my_cythonize` becomes an
`Except` computation over an explicit file-system lookup.
-/

namespace ClassSetup

/-- Model of Python `os.path.join(dir, s)` with the POSIX path separator. -/
def os_path_join (dir s : String) : String := dir ++ "/" ++ s

/-- Embedding of `prepend = lambda dir, *fnames: list(map(lambda s: os.path.join(dir, s), fnames))`. -/
def prepend (dir : String) (fnames : List String) : List String :=
  fnames.map (fun s => os_path_join dir s)

/-- Embedding of the `source_files` list of `setup.py`: the concatenation of the
`hyrec`, `source` and `tools` groups. -/
def source_files : List String :=
  prepend "hyrec"
    [ "helium.c"
    , "history.c"
    , "hydrogen.c"
    , "hyrec.c"
    , "hyrectools.c" ]
  ++ prepend "source"
    [ "background_module.cpp"
    , "cosmology.cpp"
    , "input_module.cpp"
    , "lensing_module.cpp"
    , "nonlinear_module.cpp"
    , "perturbations_module.cpp"
    , "primordial_module.cpp"
    , "spectra_module.cpp"
    , "thermodynamics_module.cpp"
    , "transfer_module.cpp" ]
  ++ prepend "tools"
    [ "arrays.c"
    , "common.c"
    , "dark_radiation.cpp"
    , "dei_rkck.c"
    , "evolver_ndf15.cpp"
    , "evolver_rkck.c"
    , "exceptions.cpp"
    , "growTable.c"
    , "hyperspherical.c"
    , "non_cold_dark_matter.cpp"
    , "parser.cpp"
    , "quadrature.c"
    , "sparse.c"
    , "trigonometric_integrals.c" ]

/-- Model of the Python string method `s.endswith(suffix)`: a suffix test on
the character sequence of `s`. -/
def endswith (s suffix : String) : Bool :=
  suffix.data.isSuffixOf s.data

/-- `c_source_files = [s for s in source_files if s.endswith('.c')]`. -/
def c_source_files : List String :=
  source_files.filter (fun s => endswith s ".c")

/-- `cpp_source_files = [s for s in source_files if s.endswith('.cpp')]`. -/
def cpp_source_files : List String :=
  source_files.filter (fun s => endswith s ".cpp")

/-- Embedding of the `include_dirs` list; `numpy.get_include()` is an
environment-supplied string, taken as a parameter. -/
def include_dirs (numpy_include : String) : List String :=
  numpy_include ::
    ["include", "main", "source", "tools"].map (fun sub => os_path_join "." sub)

/-- The fields of the `Extension('classy', ...)` call that `setup.py` constructs. -/
structure PyExtension where
  name : String
  sources : List String
  incDirs : List String
  libraries : List String
  library_dirs : List String
  language : String
  extra_compile_args : List String
  define_macros : List (String × String)

/-- Embedding of `classy_ext`, parameterised by `os.name` and the numpy include
directory. `libraries` is `['m'] if not os.name == 'nt' else []` and
`extra_compile_args` is `['-std=c++17'] if os.name != 'nt' else ['/std:c++17']`. -/
def classy_ext (os_name numpy_include : String) : PyExtension :=
  { name := "classy"
  , sources := "classy.pyx" :: cpp_source_files
  , incDirs := include_dirs numpy_include
  , libraries := if ¬ (os_name = "nt") then ["m"] else []
  , library_dirs := ["."]
  , language := "c++"
  , extra_compile_args := if os_name ≠ "nt" then ["-std=c++17"] else ["/std:c++17"]
  , define_macros := [("NPY_NO_DEPRECATED_API", "NPY_1_7_API_VERSION")] }

/-- The build-info dictionary of the `myclib` static library entry. -/
structure PyCLibrary where
  name : String
  sources : List String
  incDirs : List String

/-- Embedding of `myclib = ('myclib', {'sources': c_source_files, 'include_dirs': include_dirs})`. -/
def myclib (numpy_include : String) : PyCLibrary :=
  { name := "myclib"
  , sources := c_source_files
  , incDirs := include_dirs numpy_include }

/-- The `packages` argument of the `setup(...)` call. -/
def packages : List String := ["classy.bbn", "classy.hyrec"]

/-- The `package_data` argument of the `setup(...)` call. -/
def package_data : List (String × List String) :=
  [("classy.bbn", ["*.dat"]), ("classy.hyrec", ["*.dat"])]

/-- Errors a `my_cythonize` call can surface: the `open` raising
`FileNotFoundError` because `generate_wrapper.py` is absent, or the `exec` of
its contents raising some exception `e`. -/
inductive SetupError (E : Type) where
  | fileNotFoundError : SetupError E
  | raised : E → SetupError E
deriving DecidableEq

/-- Embedding of `my_cythonize`: it opens `generate_wrapper.py` (looked up in
the file system `fs`), executes its contents (`execFile`, which may raise), and
only then returns `cythonize` applied to the same arguments. -/
def my_cythonize {E A R : Type} (fs : String → Option String)
    (execFile : String → Except E Unit) (cythonize : A → R) (args : A) :
    Except (SetupError E) R :=
  match fs "generate_wrapper.py" with
  | none => .error .fileNotFoundError
  | some contents =>
      match execFile contents with
      | .error e => .error (.raised e)
      | .ok _ => .ok (cythonize args)

/-- Modelled from the spec: the per-wavenumber fan-out of the perturbation and
transfer stages, whose C++ implementation units (listed in `source_files`) are
not part of the build script itself. Every per-wavenumber task has already run
to completion, producing either its result or its own error (outstanding tasks
are allowed to finish); the run then folds over all of them, aggregating every
error into a single report and reporting failure for the whole run, discarding
all computed results, whenever any task failed. -/
def aggregateRun {E A : Type} : List (Except E A) → Except (List E) (List A)
  | [] => Except.ok []
  | Except.ok a :: rest =>
      match aggregateRun rest with
      | Except.ok results => Except.ok (a :: results)
      | Except.error errs => Except.error errs
  | Except.error e :: rest =>
      match aggregateRun rest with
      | Except.ok _ => Except.error [e]
      | Except.error errs => Except.error (e :: errs)

/-- The errors of the failed per-wavenumber tasks, in task order. -/
def taskErrors {E A : Type} (tasks : List (Except E A)) : List E :=
  tasks.filterMap (fun t => match t with
    | Except.error e => some e
    | Except.ok _ => none)

/-- Modelled from the spec: the staged dataflow of the full pipeline (system
overview, dependency order leaves first). The numerical content of each stage
lives in the compilation units, not in the build script, so the stages are
parameters; what the spec fixes is that each table is computed from the
configuration and the earlier tables alone. -/
structure PipelineStages (C B T S R Q : Type) where
  background : C → B
  thermodynamics : C → B → T
  perturbations : C → B → T → S
  transfer : C → S → R
  assemble : C → R → Q

/-- All tables produced by one pipeline computation, in dependency order:
background, thermodynamics, source, transfer-function tables and the spectra. -/
def computeTables {C B T S R Q : Type} (P : PipelineStages C B T S R Q)
    (cfg : C) : B × T × S × R × Q :=
  let bg := P.background cfg
  let th := P.thermodynamics cfg bg
  let src := P.perturbations cfg bg th
  let tr := P.transfer cfg src
  (bg, th, src, tr, P.assemble cfg tr)

/-- Modelled from the spec: one invocation of the host-caller interface. It
receives the configuration and whatever state an earlier invocation left
persisted, recomputes every table from the configuration alone, and persists
nothing for later runs: the persisted-state component is never read and is
returned untouched. -/
def invokePipeline {C B T S R Q St : Type} (P : PipelineStages C B T S R Q)
    (cfg : C) (persisted : St) : (B × T × S × R × Q) × St :=
  (computeTables P cfg, persisted)

/-- Two consecutive invocations with the same configuration, the second run
starting from whatever state the first one left behind. -/
def invokeTwice {C B T S R Q St : Type} (P : PipelineStages C B T S R Q)
    (cfg : C) (s0 : St) : (B × T × S × R × Q) × (B × T × S × R × Q) × St :=
  let first := invokePipeline P cfg s0
  let second := invokePipeline P cfg first.2
  (first.1, second.1, second.2)

end ClassSetup

namespace ClassSetup

/-- Claim C1: for every core pipeline component of the system overview, the
`source_files` list contains exactly one C++ compilation unit under `source/`
corresponding to it, and each of these units is a member of `cpp_source_files`
and hence of the source list of the `classy` extension. -/
theorem c1_core_pipeline_units (os_name numpy_include : String) :
    ∀ u ∈ [ "source/background_module.cpp"
          , "source/thermodynamics_module.cpp"
          , "source/perturbations_module.cpp"
          , "source/transfer_module.cpp"
          , "source/spectra_module.cpp"
          , "source/nonlinear_module.cpp"
          , "source/lensing_module.cpp"
          , "source/primordial_module.cpp" ],
      source_files.count u = 1 ∧ u ∈ cpp_source_files ∧
        u ∈ (classy_ext os_name numpy_include).sources := by
  have h : (classy_ext os_name numpy_include).sources
      = "classy.pyx" :: cpp_source_files := rfl
  simp only [h]
  decide

/-- Witness for C1 at the background solver unit. -/
theorem c1_core_pipeline_units_witness :
    source_files.count "source/background_module.cpp" = 1 ∧
      "source/background_module.cpp" ∈ cpp_source_files ∧
      "source/background_module.cpp" ∈ (classy_ext "posix" "numpy-include").sources :=
  c1_core_pipeline_units "posix" "numpy-include" "source/background_module.cpp" (by decide)

/-- Claim C2: the build provides both stepping families of the stiff ODE
evolver contract: the implicit variable-order multistep unit
`tools/evolver_ndf15.cpp`, the explicit adaptive Runge-Kutta unit
`tools/evolver_rkck.c`, and the sparse linear-algebra kernel `tools/sparse.c`
are all in `source_files`. -/
theorem c2_evolver_units_present :
    "tools/evolver_ndf15.cpp" ∈ source_files ∧
      "tools/evolver_rkck.c" ∈ source_files ∧
      "tools/sparse.c" ∈ source_files := by
  decide

/-- Claim C3: the `source_files` list, the concatenation of the `hyrec`,
`source` and `tools` groups, has exactly 29 entries (5 + 10 + 14), i.e. roughly
two dozen compilation units. -/
theorem c3_roughly_two_dozen_units :
    source_files.length = 29 := by
  decide

/-- Claim C4: the recombination collaborator is compiled in: the five
`hyrec/*.c` units are in `source_files`, each ends in `.c` and is selected into
`c_source_files` and hence into the `myclib` static library sources, and the
package `classy.hyrec` is installed with its `*.dat` data files. -/
theorem c4_hyrec_compiled_in (numpy_include : String) :
    (∀ f ∈ [ "hyrec/helium.c"
           , "hyrec/history.c"
           , "hyrec/hydrogen.c"
           , "hyrec/hyrec.c"
           , "hyrec/hyrectools.c" ],
      f ∈ source_files ∧ endswith f ".c" = true ∧ f ∈ c_source_files ∧
        f ∈ (myclib numpy_include).sources) ∧
      "classy.hyrec" ∈ packages ∧ ("classy.hyrec", ["*.dat"]) ∈ package_data := by
  have h : (myclib numpy_include).sources = c_source_files := rfl
  simp only [h]
  decide

/-- Witness for C4 at the helium unit. -/
theorem c4_hyrec_compiled_in_witness :
    "hyrec/helium.c" ∈ source_files ∧ endswith "hyrec/helium.c" ".c" = true ∧
      "hyrec/helium.c" ∈ c_source_files ∧
      "hyrec/helium.c" ∈ (myclib "numpy-include").sources :=
  (c4_hyrec_compiled_in "numpy-include").1 "hyrec/helium.c" (by decide)

/-- Claim C5: the special-function leaf library is in the build:
`tools/hyperspherical.c` and `tools/quadrature.c` are in `source_files`, end in
`.c`, are selected into `c_source_files` and hence into the `myclib` static
library, and are not in the C++ source list of the `classy` extension. -/
theorem c5_special_function_library (os_name numpy_include : String) :
    ∀ f ∈ ["tools/hyperspherical.c", "tools/quadrature.c"],
      f ∈ source_files ∧ endswith f ".c" = true ∧ f ∈ c_source_files ∧
        f ∈ (myclib numpy_include).sources ∧ f ∉ cpp_source_files ∧
        f ∉ (classy_ext os_name numpy_include).sources := by
  have h1 : (myclib numpy_include).sources = c_source_files := rfl
  have h2 : (classy_ext os_name numpy_include).sources
      = "classy.pyx" :: cpp_source_files := rfl
  simp only [h1, h2]
  decide

/-- Witness for C5 at the hyperspherical Bessel unit. -/
theorem c5_special_function_library_witness :
    "tools/hyperspherical.c" ∈ source_files ∧
      endswith "tools/hyperspherical.c" ".c" = true ∧
      "tools/hyperspherical.c" ∈ c_source_files ∧
      "tools/hyperspherical.c" ∈ (myclib "numpy-include").sources ∧
      "tools/hyperspherical.c" ∉ cpp_source_files ∧
      "tools/hyperspherical.c" ∉ (classy_ext "posix" "numpy-include").sources :=
  c5_special_function_library "posix" "numpy-include" "tools/hyperspherical.c" (by decide)

/-- Helper: a run none of whose tasks failed succeeds with one result per task. -/
theorem aggregate_ok_of_no_errors {E A : Type} (tasks : List (Except E A))
    (h : taskErrors tasks = []) :
    ∃ results : List A, aggregateRun tasks = Except.ok results ∧
      results.length = tasks.length := by
  induction tasks with
  | nil => exact ⟨[], rfl, rfl⟩
  | cons t rest ih =>
    cases t with
    | ok a =>
      have hr : taskErrors rest = [] := by
        simpa [taskErrors] using h
      obtain ⟨results, hres, hlen⟩ := ih hr
      exact ⟨a :: results, by simp [aggregateRun, hres], by simp [hlen]⟩
    | error e =>
      have : taskErrors (Except.error e :: rest) = e :: taskErrors rest := by
        simp [taskErrors]
      rw [this] at h
      exact absurd h (List.cons_ne_nil e (taskErrors rest))

/-- Helper: a run with at least one failed task reports whole-run failure
carrying exactly the aggregated list of the failed tasks' errors. -/
theorem aggregate_error_of_errors {E A : Type} (tasks : List (Except E A))
    (h : taskErrors tasks ≠ []) :
    aggregateRun tasks = Except.error (taskErrors tasks) := by
  induction tasks with
  | nil => exact absurd rfl h
  | cons t rest ih =>
    cases t with
    | ok a =>
      have hte : taskErrors (Except.ok a :: rest) = taskErrors rest := by
        simp [taskErrors]
      rw [hte] at h ⊢
      simp [aggregateRun, ih h]
    | error e =>
      have hte : taskErrors (Except.error e :: rest) = e :: taskErrors rest := by
        simp [taskErrors]
      rw [hte]
      by_cases hr : taskErrors rest = []
      · obtain ⟨results, hres, -⟩ := aggregate_ok_of_no_errors rest hr
        simp [aggregateRun, hres, hr]
      · simp [aggregateRun, ih hr]

/-- Claim C6: if any wavenumber task fails, the run reports failure for the
whole pipeline and discards all results; when no task fails the run succeeds
with one result per task; every per-wavenumber failure ends up aggregated in
the single error report. -/
theorem c6_failure_aggregation {E A : Type} (tasks : List (Except E A)) :
    (taskErrors tasks ≠ [] →
      aggregateRun tasks = Except.error (taskErrors tasks)) ∧
    (taskErrors tasks = [] →
      ∃ results : List A, aggregateRun tasks = Except.ok results ∧
        results.length = tasks.length) ∧
    (∀ e : E, Except.error e ∈ tasks → e ∈ taskErrors tasks) := by
  refine ⟨aggregate_error_of_errors tasks, aggregate_ok_of_no_errors tasks, ?_⟩
  intro e he
  simp only [taskErrors, List.mem_filterMap]
  exact ⟨Except.error e, he, rfl⟩

/-- Witness for C6: a run of three wavenumber tasks whose middle task fails is
reported as a whole-run failure carrying exactly that task's error. -/
theorem c6_failure_aggregation_witness :
    aggregateRun [Except.ok 10, Except.error "k=2: NonConvergence", Except.ok 30]
      = Except.error ["k=2: NonConvergence"] :=
  (c6_failure_aggregation
    [Except.ok 10, Except.error "k=2: NonConvergence", Except.ok 30]).1 (by decide)

/-- Claim C7: running the pipeline twice with identical configuration produces
identical tables; the persisted state is returned untouched, and the tables of
an invocation do not depend on it at all, only on the configuration. -/
theorem c7_rerun_reproducible {C B T S R Q St : Type}
    (P : PipelineStages C B T S R Q) (cfg : C) (s0 : St) :
    (invokeTwice P cfg s0).1 = (invokeTwice P cfg s0).2.1 ∧
      (invokeTwice P cfg s0).2.2 = s0 ∧
      (∀ s s' : St, (invokePipeline P cfg s).1 = (invokePipeline P cfg s').1) :=
  ⟨rfl, rfl, fun _ _ => rfl⟩

/-- Claim C8: partition invariant of the build. Every entry of `source_files`
ends with exactly one of `.c` or `.cpp`; `c_source_files` and
`cpp_source_files` are order-preserving sublists of `source_files`, disjoint,
and together a permutation of all of `source_files`; and every compilation
unit is assigned to exactly one build product: the `myclib` static library for
`.c` files, the `classy` extension for `.cpp` files. -/
theorem c8_partition_invariant (os_name numpy_include : String) :
    (∀ s ∈ source_files, (endswith s ".c" = true ↔ ¬ endswith s ".cpp" = true)) ∧
      c_source_files.Sublist source_files ∧
      cpp_source_files.Sublist source_files ∧
      (∀ s ∈ c_source_files, s ∉ cpp_source_files) ∧
      (c_source_files ++ cpp_source_files).Perm source_files ∧
      (∀ s ∈ source_files,
        (s ∈ (myclib numpy_include).sources ↔ endswith s ".c" = true) ∧
          (s ∈ (classy_ext os_name numpy_include).sources ↔
            endswith s ".cpp" = true)) := by
  refine ⟨by decide, List.filter_sublist _, List.filter_sublist _, by decide, ?_, ?_⟩
  · have h : cpp_source_files = source_files.filter (fun s => !(endswith s ".c")) := by
      decide
    rw [h]
    exact List.filter_append_perm _ _
  · have h1 : (myclib numpy_include).sources = c_source_files := rfl
    have h2 : (classy_ext os_name numpy_include).sources
        = "classy.pyx" :: cpp_source_files := rfl
    simp only [h1, h2]
    decide

/-- Witness for C8: the helium unit ends with `.c` and not `.cpp`, and is
assigned to `myclib` and not to the `classy` extension. -/
theorem c8_partition_invariant_witness :
    (endswith "hyrec/helium.c" ".c" = true ↔
      ¬ endswith "hyrec/helium.c" ".cpp" = true) ∧
    ("hyrec/helium.c" ∈ (myclib "numpy-include").sources ↔
      endswith "hyrec/helium.c" ".c" = true) :=
  ⟨(c8_partition_invariant "posix" "numpy-include").1 "hyrec/helium.c" (by decide),
   ((c8_partition_invariant "posix" "numpy-include").2.2.2.2.2 "hyrec/helium.c"
      (by decide)).1⟩

/-- Claim C9: `my_cythonize` always opens and executes `generate_wrapper.py`
before delegating to `cythonize`: if the file is absent it fails with a
file-not-found error before any extension is cythonized; if it is present and
its executed code does not raise, it returns exactly the value of `cythonize`
applied to the same arguments. -/
theorem c9_my_cythonize_behaviour {E A R : Type} (fs : String → Option String)
    (execFile : String → Except E Unit) (cythonize : A → R) (args : A) :
    (fs "generate_wrapper.py" = none →
      my_cythonize fs execFile cythonize args
        = Except.error SetupError.fileNotFoundError) ∧
    (∀ c, fs "generate_wrapper.py" = some c → execFile c = Except.ok () →
      my_cythonize fs execFile cythonize args = Except.ok (cythonize args)) := by
  constructor
  · intro h
    simp [my_cythonize, h]
  · intro c hc he
    simp [my_cythonize, hc, he]

/-- Witness for C9: with an empty file system the call fails with
file-not-found; with `generate_wrapper.py` present and a non-raising exec, it
returns the cythonize value of the arguments. -/
theorem c9_my_cythonize_behaviour_witness :
    my_cythonize (fun _ => (none : Option String))
        (fun _ => (Except.ok () : Except Unit Unit)) (fun n : Nat => n + 1) 3
      = Except.error SetupError.fileNotFoundError ∧
    my_cythonize (fun _ => (some "pass" : Option String))
        (fun _ => (Except.ok () : Except Unit Unit)) (fun n : Nat => n + 1) 3
      = Except.ok 4 :=
  ⟨(c9_my_cythonize_behaviour (fun _ => none) (fun _ => Except.ok ())
      (fun n : Nat => n + 1) 3).1 rfl,
   (c9_my_cythonize_behaviour (fun _ => some "pass") (fun _ => Except.ok ())
      (fun n : Nat => n + 1) 3).2 "pass" rfl rfl⟩

/-- Claim C10: platform cases of the `classy` extension: its libraries list is
`['m']` exactly when `os.name` is not `nt` (empty on Windows), its
extra compile arguments request C++17 in the GCC spelling off Windows and in
the MSVC spelling on Windows, and its language is `c++` in every case. -/
theorem c10_platform_cases (os_name numpy_include : String) :
    ((classy_ext os_name numpy_include).libraries = ["m"] ↔ os_name ≠ "nt") ∧
      (os_name = "nt" → (classy_ext os_name numpy_include).libraries = []) ∧
      (os_name ≠ "nt" →
        (classy_ext os_name numpy_include).extra_compile_args = ["-std=c++17"]) ∧
      (os_name = "nt" →
        (classy_ext os_name numpy_include).extra_compile_args = ["/std:c++17"]) ∧
      (classy_ext os_name numpy_include).language = "c++" := by
  simp only [classy_ext]
  by_cases h : os_name = "nt" <;> simp [h]

/-- Witness for C10 on a POSIX platform and on Windows. -/
theorem c10_platform_cases_witness :
    (classy_ext "posix" "numpy-include").libraries = ["m"] ∧
      (classy_ext "nt" "numpy-include").libraries = [] ∧
      (classy_ext "posix" "numpy-include").extra_compile_args = ["-std=c++17"] ∧
      (classy_ext "nt" "numpy-include").extra_compile_args = ["/std:c++17"] :=
  ⟨(c10_platform_cases "posix" "numpy-include").1.mpr (by decide),
   (c10_platform_cases "nt" "numpy-include").2.1 rfl,
   (c10_platform_cases "posix" "numpy-include").2.2.1 (by decide),
   (c10_platform_cases "nt" "numpy-include").2.2.2.1 rfl⟩

end ClassSetup
